import Mathlib

set_option autoImplicit false

namespace DynWebApi

/-! Shallow embedding of the ts-dynamics-web-api repository: the paginated
fetcher, the per-category field mappers, the diagram inclusion filter, the
DOT edge generation and the orchestration loop of processEntityAll. -/

/-- JavaScript runtime values as they occur in the API records handled by this
program: an absent property reads as undefined; JSON null, booleans, integers
and strings cover every value the mappers produce or inspect. -/
inductive JSValue where
  | undefined
  | null
  | bool (b : Bool)
  | num (n : Int)
  | str (s : String)
deriving DecidableEq, Repr

/-- JavaScript truthiness of a value (undefined, null, false, 0 and the empty
string are falsy). -/
def truthy : JSValue → Bool
  | .undefined => false
  | .null => false
  | .bool b => b
  | .num n => !(n == 0)
  | .str s => !(s == "")

/-- A mapped row: the ordered key-value object literal a field mapper returns
(Record of string to any in the source). -/
abbrev Row := List (String × JSValue)

/-- The key sequence of a row, as Object.keys reads it. -/
def rowKeys (r : Row) : List String := r.map Prod.fst

/-- Lookup of a key in a row (first occurrence; the literals built by the
mappers have pairwise distinct keys). -/
def rowLookup (r : Row) (k : String) : Option JSValue :=
  (r.find? (fun kv => kv.fst == k)).map Prod.snd

/-- Property access rel[k] on a JavaScript object: undefined when absent. -/
def getField (r : Row) (k : String) : JSValue :=
  (rowLookup r k).getD .undefined

/-- Whether a character list starts with the given pattern list. -/
def startsWithL : List Char → List Char → Bool
  | [], _ => true
  | _ :: _, [] => false
  | p :: ps, c :: cs => p == c && startsWithL ps cs

/-- Whether the pattern occurs as a contiguous run inside the character list. -/
def containsSubL (pat : List Char) : List Char → Bool
  | [] => pat.isEmpty
  | c :: cs => startsWithL pat (c :: cs) || containsSubL pat cs

/-- JavaScript s.includes(pat): substring containment. -/
def containsSub (s pat : String) : Bool := containsSubL pat.data s.data

/-- ASCII lowercasing of one character (the names this program lowercases are
ASCII schema and entity names). -/
def lowerChar (c : Char) : Char :=
  if 'A' ≤ c ∧ c ≤ 'Z' then Char.ofNat (c.toNat + 32) else c

/-- Model of s.toLowerCase().includes(pat): case-insensitive containment for a
lowercase pattern. -/
def containsLower (s pat : String) : Bool :=
  containsSubL pat.data (s.data.map lowerChar)

/-! Pagination (entityRelationships.ts fetchAllPages, and the identical loops
in entityViews.ts, entityForms.ts and the inline loop of entityColumns.ts
fetchEntityAttributes). The loop is modelled over the sequence of JSON
responses the server yields for the successive GET requests. -/

/-- One HTTP JSON response of a paged OData collection: a possibly absent
value array and a possibly absent continuation link. -/
structure Page (α : Type) where
  value : Option (List α)
  nextLink : Option String
deriving Repr, DecidableEq

/-- The records a response contributes: data.value or the empty array when
the value field is absent. -/
def pageRecords {α : Type} (p : Page α) : List α := p.value.getD []

/-- Truthiness of data[the odata nextLink field]: the loop continues only on a
present, non-empty link string. -/
def truthyLink : Option String → Bool
  | none => false
  | some s => !(s == "")

/-- Shallow embedding of the fetchAllPages while loop: take the current
response, append its value array to the accumulator, and continue exactly when
the continuation link is truthy. -/
def fetchAllPages {α : Type} : List (Page α) → List α
  | [] => []
  | p :: rest =>
    if truthyLink p.nextLink then pageRecords p ++ fetchAllPages rest
    else pageRecords p

/-- Concatenation of every page's value array, in arrival order. -/
def flattenPages {α : Type} : List (Page α) → List α
  | [] => []
  | p :: rest => pageRecords p ++ flattenPages rest

/-- Every response except possibly the last carries a truthy continuation
link. -/
def chainedExceptLast {α : Type} : List (Page α) → Bool
  | [] => true
  | [_] => true
  | p :: q :: rest => truthyLink p.nextLink && chainedExceptLast (q :: rest)

/-- The last response, if any, lacks a (truthy) continuation link. -/
def lastNoLink {α : Type} (pages : List (Page α)) : Bool :=
  match pages.getLast? with
  | none => true
  | some p => !(truthyLink p.nextLink)

theorem fetchAllPages_eq_flattenPages {α : Type} (pages : List (Page α))
    (h : chainedExceptLast pages = true) :
    fetchAllPages pages = flattenPages pages := by
  induction pages with
  | nil => rfl
  | cons p rest ih =>
    cases rest with
    | nil =>
      by_cases hl : truthyLink p.nextLink = true
      · simp [fetchAllPages, flattenPages, hl]
      · simp [fetchAllPages, flattenPages, hl]
    | cons q rest2 =>
      have hp : truthyLink p.nextLink = true := by
        have := h
        simp [chainedExceptLast] at this
        exact this.1
      have h2 : chainedExceptLast (q :: rest2) = true := by
        have := h
        simp [chainedExceptLast] at this
        exact this.2
      have hstep : fetchAllPages (p :: q :: rest2)
          = pageRecords p ++ fetchAllPages (q :: rest2) := by
        simp [fetchAllPages, hp]
      rw [hstep, ih h2]
      rfl

theorem flattenPages_length {α : Type} (pages : List (Page α)) :
    (flattenPages pages).length
      = (pages.map (fun p => (pageRecords p).length)).sum := by
  induction pages with
  | nil => rfl
  | cons p rest ih => simp [flattenPages, ih]

/-- C1: for every sequence of page responses in which each page carries a
possibly absent value array and only the last page lacks a continuation link,
fetchAllPages returns exactly the concatenation of all pages' value arrays in
arrival order (an absent value contributes zero records), so the result length
is the sum of the page sizes and no record is reordered, dropped or
deduplicated. -/
theorem fetchAllPages_concats_pages {α : Type} (pages : List (Page α))
    (hchain : chainedExceptLast pages = true)
    (_hlast : lastNoLink pages = true) :
    fetchAllPages pages = flattenPages pages ∧
    (fetchAllPages pages).length
      = (pages.map (fun p => (pageRecords p).length)).sum := by
  have he := fetchAllPages_eq_flattenPages pages hchain
  exact ⟨he, by rw [he]; exact flattenPages_length pages⟩

/-- Concrete three-page run for the pagination theorem: pages of sizes 2, 0
(absent value array) and 1, linked except for the last. -/
def c1pages : List (Page Nat) :=
  [⟨some [10, 11], some "page2"⟩, ⟨none, some "page3"⟩, ⟨some [12], none⟩]

theorem fetchAllPages_concats_pages_witness :
    chainedExceptLast c1pages = true ∧ lastNoLink c1pages = true ∧
    (fetchAllPages c1pages = flattenPages c1pages ∧
      (fetchAllPages c1pages).length
        = (c1pages.map (fun p => (pageRecords p).length)).sum) :=
  ⟨by decide, by decide, fetchAllPages_concats_pages c1pages (by decide) (by decide)⟩

/-! Failure model of the paginated fetch (entityColumns.ts
fetchEntityAttributes and entityRelationships.ts fetchAllPages): each GET
either yields a response or fails (a rejected promise; the catch block in
entityColumns logs and rethrows); the loop surfaces the first failure
immediately. -/

/-- Paginated fetch over fallible responses: behaves as fetchAllPages on
successful responses and aborts with the underlying failure as soon as one
request fails; no retry, and the records accumulated so far are not
returned. -/
def fetchAllPagesE {α : Type} :
    List (Except String (Page α)) → Except String (List α)
  | [] => .ok []
  | .error e :: _ => .error e
  | .ok p :: rest =>
    if truthyLink p.nextLink then
      match fetchAllPagesE rest with
      | .error e => .error e
      | .ok tail => .ok (pageRecords p ++ tail)
    else .ok (pageRecords p)

/-- C9: if any page request of a paginated fetch fails, the fetch aborts
immediately with that failure surfaced to the caller: however many pages were
already accumulated, the result is exactly the error, so no partial
accumulation is returned and no retry is attempted. -/
theorem fetchAllPagesE_aborts_on_error {α : Type} (good : List (Page α))
    (e : String) (rest : List (Except String (Page α)))
    (h : ∀ p ∈ good, truthyLink p.nextLink = true) :
    fetchAllPagesE (good.map Except.ok ++ Except.error e :: rest)
      = Except.error e := by
  induction good with
  | nil => rfl
  | cons p good2 ih =>
    have hp : truthyLink p.nextLink = true := h p (by simp)
    have h2 : ∀ q ∈ good2, truthyLink q.nextLink = true :=
      fun q hq => h q (by simp [hq])
    simp [fetchAllPagesE, hp, ih h2]

/-- Concrete failing run for the abort theorem: one successful page of one
record, then a failed request. -/
def c9good : List (Page Nat) := [⟨some [7], some "page2"⟩]

theorem fetchAllPagesE_aborts_on_error_witness :
    fetchAllPagesE (c9good.map Except.ok
        ++ Except.error "HTTP 401" :: ([] : List (Except String (Page Nat))))
      = Except.error "HTTP 401" :=
  fetchAllPagesE_aborts_on_error c9good "HTTP 401" [] (by decide)

/-! Diagram inclusion filter (processEntity.ts shouldIncludeRelationship). -/

/-- Model of the optional chain on a name field, lowercasing it and searching
for the excluded substring: null and undefined short-circuit to undefined,
which is falsy; the fields inspected are strings whenever present. -/
def msspCheckField (v : JSValue) : Bool :=
  match v with
  | .str s => containsLower s "mssp"
  | _ => false

/-- Shallow embedding of shouldIncludeRelationship: keep a relationship iff
HasChanged is not strictly null or IsCustomRelationship is strictly true, and
none of Schema Name, Entity Ref. and Referencing Entity contains the excluded
substring mssp case-insensitively. -/
def shouldIncludeRelationship (rel : Row) : Bool :=
  let hasCustomOrChanged :=
    !(getField rel "HasChanged" == JSValue.null)
      || (getField rel "IsCustomRelationship" == JSValue.bool true)
  let msspCheck :=
    msspCheckField (getField rel "Schema Name")
      || msspCheckField (getField rel "Entity Ref.")
      || msspCheckField (getField rel "Referencing Entity")
  hasCustomOrChanged && !msspCheck

/-- A relationship edge record carrying the fields the diagram filter and the
DOT generator inspect: the changed and custom flags and the name fields
(Referencing Entity is the edge's source entity, Entity Ref. its target). -/
def mkEdge (hasChanged isCustom : JSValue)
    (schemaName rtype entityRef referencingEntity : String) : Row :=
  [("Schema Name", .str schemaName), ("Type", .str rtype),
   ("Entity Ref.", .str entityRef),
   ("Referencing Entity", .str referencingEntity),
   ("HasChanged", hasChanged), ("IsCustomRelationship", isCustom)]

theorem shouldIncludeRelationship_mkEdge (hc ic : JSValue)
    (sn t er re : String) :
    shouldIncludeRelationship (mkEdge hc ic sn t er re)
      = ((!(hc == JSValue.null) || (ic == JSValue.bool true))
          && !(containsLower sn "mssp" || containsLower er "mssp"
                || containsLower re "mssp")) := rfl

/-- C4: the diagram inclusion filter keeps a relationship edge iff it is
flagged custom or flagged changed (HasChanged not null) and none of its
schema name, source entity name or target entity name contains the excluded
substring mssp case-insensitively; in particular an edge with changed null
and custom false is excluded, and a custom edge whose source entity name
contains the excluded substring is excluded. -/
theorem shouldIncludeRelationship_spec :
    (∀ (hc ic : JSValue) (sn t er re : String),
      shouldIncludeRelationship (mkEdge hc ic sn t er re) = true ↔
        ((hc ≠ JSValue.null ∨ ic = JSValue.bool true) ∧
          containsLower sn "mssp" = false ∧
          containsLower er "mssp" = false ∧
          containsLower re "mssp" = false)) ∧
    shouldIncludeRelationship
      (mkEdge JSValue.null (JSValue.bool false)
        "new_account_contact" "OneToManyRelationship"
        "account" "contact") = false ∧
    shouldIncludeRelationship
      (mkEdge JSValue.null (JSValue.bool true)
        "new_account_contact" "OneToManyRelationship"
        "account" "new_MSSP_site") = false := by
  refine ⟨?_, by decide, by decide⟩
  intro hc ic sn t er re
  rw [shouldIncludeRelationship_mkEdge]
  simp [Bool.and_eq_true, Bool.or_eq_true, Bool.not_eq_true',
    Bool.or_eq_false_iff, beq_iff_eq, and_assoc]

/-- C10: the filter treats the changed flag as flagged changed whenever it is
non-null: an edge with HasChanged strictly false (present but false),
IsCustomRelationship false and no name field containing the excluded
substring is included. -/
theorem shouldIncludeRelationship_hasChanged_false (sn t er re : String)
    (h1 : containsLower sn "mssp" = false)
    (h2 : containsLower er "mssp" = false)
    (h3 : containsLower re "mssp" = false) :
    shouldIncludeRelationship
      (mkEdge (JSValue.bool false) (JSValue.bool false) sn t er re)
      = true := by
  rw [shouldIncludeRelationship_mkEdge, h1, h2, h3]
  rfl

theorem shouldIncludeRelationship_hasChanged_false_witness :
    containsLower "new_account_contact" "mssp" = false ∧
    containsLower "account" "mssp" = false ∧
    containsLower "contact" "mssp" = false ∧
    shouldIncludeRelationship
      (mkEdge (JSValue.bool false) (JSValue.bool false)
        "new_account_contact" "OneToManyRelationship" "account" "contact")
      = true :=
  ⟨by decide, by decide, by decide,
    shouldIncludeRelationship_hasChanged_false
      "new_account_contact" "OneToManyRelationship" "account" "contact"
      (by decide) (by decide) (by decide)⟩

/-! Field mappers. Raw records are the runtime view of the API responses:
every source field may be absent (undefined) or null, which the mappers'
JavaScript defaulting operators collapse identically, so an Option models
both. -/

/-- Model of the JavaScript defaulting x or-else empty-string on a string
field (an absent, null or empty value all yield the empty string). -/
def strOrEmpty (v : Option String) : JSValue := .str (v.getD "")

/-- Model of the nullish coalescing x question-question empty-string on a
boolean field: the boolean when present, the empty string otherwise. -/
def boolNn (v : Option Bool) : JSValue :=
  match v with
  | some b => .bool b
  | none => .str ""

/-- Model of the nullish coalescing x question-question empty-string on a
numeric field. -/
def intNn (v : Option Int) : JSValue :=
  match v with
  | some n => .num n
  | none => .str ""

/-- A bare property reference with no defaulting: undefined when absent. -/
def passStr (v : Option String) : JSValue :=
  match v with
  | some s => .str s
  | none => .undefined

/-- A bare boolean property reference with no defaulting. -/
def passBool (v : Option Bool) : JSValue :=
  match v with
  | some b => .bool b
  | none => .undefined

/-- Model of table[x] or-else default for the inline coded-value lookup
tables: an absent code or a code outside the table yields the default. -/
def lookupOr (table : Int → Option String) (v : Option Int) (d : String) :
    JSValue :=
  .str ((v.bind table).getD d)

/-- A navigation property wrapping a boolean Value. -/
structure BoolProp where
  Value : Option Bool
deriving DecidableEq, Repr

/-- A navigation property wrapping a string Value. -/
structure StrProp where
  Value : Option String
deriving DecidableEq, Repr

/-- One localized label of a Description object. -/
structure LocalizedLabel where
  Label : Option String
deriving DecidableEq, Repr

/-- A Description-style label bag. -/
structure LabelBag where
  LocalizedLabels : Option (List LocalizedLabel)
deriving DecidableEq, Repr

/-- Raw attribute record as transformAttribute (entityColumns.ts) reads it. -/
structure RawAttribute where
  SchemaName : Option String
  AttributeType : Option String
  EntityLogicalName : Option String
  IsCustomAttribute : Option Bool
  IsPrimaryId : Option Bool
  IsManaged : Option Bool
  Description : Option LabelBag
  IsAuditEnabled : Option BoolProp
  IsCustomizable : Option BoolProp
  RequiredLevel : Option StrProp
  DateTimeBehavior : Option StrProp
  FormatName : Option StrProp
deriving DecidableEq, Repr

/-- Shallow embedding of transformAttribute: the fixed ordered object literal
of twelve display columns built from one raw attribute. -/
def transformAttribute (a : RawAttribute) : Row :=
  [("Name", strOrEmpty a.SchemaName),
   ("Data Type", strOrEmpty a.AttributeType),
   ("Entity", strOrEmpty a.EntityLogicalName),
   ("Custom", boolNn a.IsCustomAttribute),
   ("Primary ID", boolNn a.IsPrimaryId),
   ("Managed", boolNn a.IsManaged),
   ("Description", strOrEmpty
     (((a.Description.bind LabelBag.LocalizedLabels).bind List.head?).bind
       LocalizedLabel.Label)),
   ("Audited", boolNn (a.IsAuditEnabled.bind BoolProp.Value)),
   ("Customizable", boolNn (a.IsCustomizable.bind BoolProp.Value)),
   ("Required", strOrEmpty (a.RequiredLevel.bind StrProp.Value)),
   ("Date Behavior", strOrEmpty (a.DateTimeBehavior.bind StrProp.Value)),
   ("Format", strOrEmpty (a.FormatName.bind StrProp.Value))]

/-- The AssociatedMenuConfiguration sub-object of a relationship. -/
structure MenuConfig where
  Behavior : Option String
  IsCustomizable : Option Bool
deriving DecidableEq, Repr

/-- The CascadeConfiguration sub-object of a relationship. -/
structure CascadeConfig where
  Assign : Option String
  Delete : Option String
  Archive : Option String
  Merge : Option String
  Reparent : Option String
  Share : Option String
  Unshare : Option String
  RollupView : Option String
deriving DecidableEq, Repr

/-- Raw relationship record as transformRelationship
(entityRelationships.ts) reads it. -/
structure RawRelationship where
  SchemaName : Option String
  SecurityTypes : Option String
  IsManaged : Option Bool
  RelationshipType : Option String
  ReferencedAttribute : Option String
  ReferencedEntity : Option String
  ReferencingAttribute : Option String
  ReferencingEntity : Option String
  IsHierarchical : Option Bool
  RelationshipBehavior : Option Int
  IsCustomizable : Option BoolProp
  AssociatedMenuConfiguration : Option MenuConfig
  CascadeConfiguration : Option CascadeConfig
deriving DecidableEq, Repr

/-- Shallow embedding of transformRelationship: the fixed ordered object
literal of twenty-one display columns built from one raw relationship. -/
def transformRelationship (rel : RawRelationship) : Row :=
  [("Schema Name", strOrEmpty rel.SchemaName),
   ("Security Types", strOrEmpty rel.SecurityTypes),
   ("Managed", boolNn rel.IsManaged),
   ("Type", strOrEmpty rel.RelationshipType),
   ("Attribute Ref.", strOrEmpty rel.ReferencedAttribute),
   ("Entity Ref.", strOrEmpty rel.ReferencedEntity),
   ("Referencing Attribute", strOrEmpty rel.ReferencingAttribute),
   ("Referencing Entity", strOrEmpty rel.ReferencingEntity),
   ("Hierarchical", boolNn rel.IsHierarchical),
   ("Behavior", intNn rel.RelationshipBehavior),
   ("Customizable", boolNn (rel.IsCustomizable.bind BoolProp.Value)),
   ("Menu Behavior", strOrEmpty
     (rel.AssociatedMenuConfiguration.bind MenuConfig.Behavior)),
   ("Menu Customization", boolNn
     (rel.AssociatedMenuConfiguration.bind MenuConfig.IsCustomizable)),
   ("Assign", strOrEmpty (rel.CascadeConfiguration.bind CascadeConfig.Assign)),
   ("Delete", strOrEmpty (rel.CascadeConfiguration.bind CascadeConfig.Delete)),
   ("Archive", strOrEmpty
     (rel.CascadeConfiguration.bind CascadeConfig.Archive)),
   ("Merge", strOrEmpty (rel.CascadeConfiguration.bind CascadeConfig.Merge)),
   ("Reparent", strOrEmpty
     (rel.CascadeConfiguration.bind CascadeConfig.Reparent)),
   ("Share", strOrEmpty (rel.CascadeConfiguration.bind CascadeConfig.Share)),
   ("Unshare", strOrEmpty
     (rel.CascadeConfiguration.bind CascadeConfig.Unshare)),
   ("RollupView", strOrEmpty
     (rel.CascadeConfiguration.bind CascadeConfig.RollupView))]

/-- C3: any two raw records mapped by the same category mapper yield rows with
identical key set and key order, regardless of which optional source fields
were present, so the first row's keys are a valid header for every row of the
sheet. -/
theorem mapped_rows_same_keys :
    (∀ a b : RawAttribute,
      rowKeys (transformAttribute a) = rowKeys (transformAttribute b)) ∧
    (∀ r s : RawRelationship,
      rowKeys (transformRelationship r) = rowKeys (transformRelationship s)) :=
  ⟨fun _ _ => rfl, fun _ _ => rfl⟩

/-! Business-rule mapper (entityBusinessRules.ts transformBusinessRule) with
its inline coded-value lookup tables. -/

def businessRuleStatusCode : Int → Option String
  | 1 => some "Draft"
  | 2 => some "Activated"
  | 3 => some "CompanyDLPViolation"
  | _ => none

def businessRuleType : Int → Option String
  | 0 => some "Business Flow"
  | 1 => some "Task Flow"
  | _ => none

def businessRuleCategory : Int → Option String
  | 0 => some "Workflow"
  | 1 => some "Dialog"
  | 2 => some "Business Rule"
  | 3 => some "Action"
  | 4 => some "Business Process Flow"
  | 5 => some "Modern Flow"
  | 6 => some "Desktop Flow"
  | 7 => some "AI Flow"
  | _ => none

def businessRuleScope : Int → Option String
  | 1 => some "User"
  | 2 => some "Business Unit"
  | 3 => some "Parent: Child Business Unit"
  | 4 => some "Organization"
  | _ => none

def businessRuleComponentState : Int → Option String
  | 0 => some "Published"
  | 1 => some "Unpublished"
  | 2 => some "Deleted"
  | 3 => some "Deleted Unpublished"
  | _ => none

/-- Runtime view of a BusinessRule record: the TypeScript interface declares
most fields required, but the values arrive from the API unchecked, so at
runtime any field may be absent; the source key named type is spelled
type' here. -/
structure RawBusinessRule where
  name : Option String
  scope : Option Int
  ismanaged : Option Bool
  iscustomizable : Option Bool
  statecode : Option Int
  statuscode : Option Int
  type' : Option Int
  category : Option Int
deriving DecidableEq, Repr

/-- Shallow embedding of transformBusinessRule: coded fields go through a
lookup table with an empty-string default, while Name, Is Managed and
Is Customizable are bare property references with no default. -/
def transformBusinessRule (rule : RawBusinessRule) : Row :=
  [("Name", passStr rule.name),
   ("Scope", lookupOr businessRuleScope rule.scope ""),
   ("Is Managed", passBool rule.ismanaged),
   ("Is Customizable", passBool rule.iscustomizable),
   ("State Code", lookupOr businessRuleComponentState rule.statecode ""),
   ("Status Code", lookupOr businessRuleStatusCode rule.statuscode ""),
   ("Category", lookupOr businessRuleCategory rule.category ""),
   ("Type", lookupOr businessRuleType rule.type' "")]

/-! Form mapper (the transformForm revision of the forms exporter with the
inline coded-value tables). -/

def formActivationStates : Int → Option String
  | 0 => some "Inactive"
  | 1 => some "Active"
  | _ => none

def formComponentStates : Int → Option String
  | 0 => some "Published"
  | 1 => some "Unpublished"
  | 2 => some "Deleted"
  | 3 => some "Deleted Unpublished"
  | _ => none

def formPresentationStates : Int → Option String
  | 0 => some "ClassicForm"
  | 1 => some "AirForm"
  | 2 => some "ConvertedICForm"
  | _ => none

def formTypes : Int → Option String
  | 0 => some "Dashboard"
  | 1 => some "AppointmentBook"
  | 2 => some "Main"
  | 3 => some "MiniCampaignBO"
  | 4 => some "Preview"
  | 5 => some "Mobile - Express"
  | 6 => some "Quick View Form"
  | 7 => some "Quick Create"
  | 8 => some "Dialog"
  | 9 => some "Task Flow Form"
  | 10 => some "InteractionCentricDashboard"
  | 11 => some "Card"
  | 12 => some "Main - Interactive Experience"
  | 13 => some "Conceptual Dashboard"
  | 100 => some "Other"
  | 101 => some "MainBackup"
  | 102 => some "AppointmentBookBackup"
  | 103 => some "Power BI Dashboard"
  | _ => none

/-- Runtime view of a raw system-form record as transformForm reads it; the
source keys named type and iscustomizable/Value are spelled type' and
iscustomizableValue here. -/
structure RawForm where
  name : Option String
  objecttypecode : Option String
  formactivationstate : Option Int
  componentstate : Option Int
  formpresentationstate : Option Int
  isairmerged : Option Int
  type' : Option Int
  description : Option String
  isdefault : Option Bool
  ismanaged : Option Bool
  iscustomizableValue : Option Bool
deriving DecidableEq, Repr

/-- Shallow embedding of transformForm: every column carries a default —
coded fields fall back to Unknown, strings to the empty string, and the
boolean-like fields are rendered as Yes or No by truthiness. -/
def transformForm (form : RawForm) : Row :=
  [("Name", strOrEmpty form.name),
   ("Entity", strOrEmpty form.objecttypecode),
   ("Activation State",
     lookupOr formActivationStates form.formactivationstate "Unknown"),
   ("Component State",
     lookupOr formComponentStates form.componentstate "Unknown"),
   ("Presentation State",
     lookupOr formPresentationStates form.formpresentationstate "Unknown"),
   ("Is Air Merged", .str (if form.isairmerged == some 1 then "Yes" else "No")),
   ("Form Type", lookupOr formTypes form.type' "Unknown"),
   ("Description", strOrEmpty form.description),
   ("Is Default", .str (if form.isdefault.getD false then "Yes" else "No")),
   ("Is Managed", .str (if form.ismanaged.getD false then "Yes" else "No")),
   ("Is Customizable",
     .str (if form.iscustomizableValue.getD false then "Yes" else "No"))]

/-- A business-rule record with every source field absent. -/
def brAbsent : RawBusinessRule :=
  ⟨none, none, none, none, none, none, none, none⟩

/-- C2 counterexample: the business-rule mapper applied to a record whose
name field is absent yields a row whose Name column is undefined, so not
every column of every mapper degrades to a declared default. -/
theorem transformBusinessRule_undefined_column :
    ("Name", JSValue.undefined) ∈ transformBusinessRule brAbsent ∧
    rowLookup (transformBusinessRule brAbsent) "Name" = some JSValue.undefined :=
  ⟨by decide, by decide⟩

/-- C2 amended: the mappers are pure total functions over a fixed column
list; in the form mapper every column holds the extracted value or its
declared default and is never undefined, and a record missing an enumerated
code field maps to the declared default; in the business-rule mapper the same
holds for every column except the pass-through columns Name, Is Managed and
Is Customizable, which reproduce the raw field and are undefined exactly when
it is absent. -/
theorem mappers_default_columns :
    (∀ f : RawForm, ∀ kv ∈ transformForm f, kv.2 ≠ JSValue.undefined) ∧
    (∀ f : RawForm, f.type' = none →
      rowLookup (transformForm f) "Form Type" = some (JSValue.str "Unknown")) ∧
    (∀ r : RawBusinessRule, r.scope = none →
      rowLookup (transformBusinessRule r) "Scope" = some (JSValue.str "")) ∧
    (∀ r : RawBusinessRule, ∀ kv ∈ transformBusinessRule r,
      kv.2 = JSValue.undefined →
        kv.1 = "Name" ∨ kv.1 = "Is Managed" ∨ kv.1 = "Is Customizable") := by
  refine ⟨?_, ?_, ?_, ?_⟩
  · intro f kv hkv
    simp only [transformForm, List.mem_cons, List.not_mem_nil, or_false] at hkv
    rcases hkv with h|h|h|h|h|h|h|h|h|h|h <;> subst h <;>
      simp [strOrEmpty, lookupOr]
  · intro f h
    have hv : rowLookup (transformForm f) "Form Type"
        = some (lookupOr formTypes f.type' "Unknown") := rfl
    rw [hv, h]
    rfl
  · intro r h
    have hv : rowLookup (transformBusinessRule r) "Scope"
        = some (lookupOr businessRuleScope r.scope "") := rfl
    rw [hv, h]
    rfl
  · intro r kv hkv hundef
    simp only [transformBusinessRule, List.mem_cons, List.not_mem_nil,
      or_false] at hkv
    rcases hkv with h|h|h|h|h|h|h|h <;> subst h <;>
      simp_all [lookupOr]

/-- A form record with every source field absent. -/
def formAbsent : RawForm :=
  ⟨none, none, none, none, none, none, none, none, none, none, none⟩

theorem mappers_default_columns_witness :
    JSValue.str "" ≠ JSValue.undefined ∧
    rowLookup (transformForm formAbsent) "Form Type"
      = some (JSValue.str "Unknown") ∧
    rowLookup (transformBusinessRule brAbsent) "Scope"
      = some (JSValue.str "") ∧
    ("Name" = "Name" ∨ "Name" = "Is Managed" ∨ "Name" = "Is Customizable") :=
  ⟨mappers_default_columns.1 formAbsent ("Name", JSValue.str "") (by decide),
   mappers_default_columns.2.1 formAbsent rfl,
   mappers_default_columns.2.2.1 brAbsent rfl,
   mappers_default_columns.2.2.2 brAbsent ("Name", JSValue.undefined)
     (by decide) rfl⟩

/-! Category fetchers, modelled over the response sequences the server
yields. Attributes (entityColumns.ts) inlines a while loop identical to
fetchAllPages; Forms and Views call their module-local copies of
fetchAllPages (the Views copy pushes the spread value array and coalesces the
link with null, the same accumulation and continuation); Relationships
fetches its three sibling collections with fetchAllPages and concatenates
them. -/

/-- Paging loop of fetchEntityAttributes (inline in the source). -/
def fetchEntityAttributes {α : Type} (pages : List (Page α)) : List α :=
  fetchAllPages pages

/-- fetchEntityViews delegated to the module-local fetchAllPages. -/
def fetchEntityViews {α : Type} (pages : List (Page α)) : List α :=
  fetchAllPages pages

/-- fetchEntityForms delegated to the module-local fetchAllPages. -/
def fetchEntityForms {α : Type} (pages : List (Page α)) : List α :=
  fetchAllPages pages

/-- fetchEntityRelationships: the three relationship collections are paged
independently and concatenated in order. -/
def fetchEntityRelationships {α : Type}
    (oneToMany manyToOne manyToMany : List (Page α)) : List α :=
  fetchAllPages oneToMany ++ fetchAllPages manyToOne
    ++ fetchAllPages manyToMany

/-- Raw workflow record as the business-rules fetcher reads it; the source
keys named type and iscustomizable/Value are spelled type' and
iscustomizableValue here. -/
structure RawWorkflow where
  name : Option String
  scope : Option Int
  ismanaged : Option Bool
  iscustomizableValue : Option Bool
  statecode : Option Int
  statuscode : Option Int
  type' : Option Int
  category : Option Int
deriving DecidableEq, Repr

/-- The per-record map the business-rules fetcher applies to the value array
(nullish-coalescing the customizable flag to false). -/
def mkBusinessRule (rule : RawWorkflow) : RawBusinessRule :=
  { name := rule.name, scope := rule.scope, ismanaged := rule.ismanaged,
    iscustomizable := some (rule.iscustomizableValue.getD false),
    statecode := rule.statecode, statuscode := rule.statuscode,
    type' := rule.type', category := rule.category }

/-- Shallow embedding of fetchEntityBusinessRules: one single GET against the
workflows endpoint — only the first response is consumed, its value array
mapped per record; the continuation link is never read, so later pages are
never requested. -/
def fetchEntityBusinessRules (pages : List (Page RawWorkflow)) :
    List RawBusinessRule :=
  match pages with
  | [] => []
  | p :: _ => (pageRecords p).map mkBusinessRule

/-- A workflow record with only the name field present. -/
def wfNamed (s : String) : RawWorkflow :=
  ⟨some s, none, none, none, none, none, none, none⟩

def c6brPage1 : Page RawWorkflow := ⟨some [wfNamed "rule1"], some "page2"⟩

def c6brPage2 : Page RawWorkflow := ⟨some [wfNamed "rule2"], none⟩

def c6brPages : List (Page RawWorkflow) := [c6brPage1, c6brPage2]

/-- C6 counterexample: a two-page workflows response (the first page carries
a continuation link) from which the business-rules fetcher returns only the
first page's single record, although two records exist across the pages —
so not every category fetcher follows the continuation link. -/
theorem fetchEntityBusinessRules_first_page_only :
    chainedExceptLast c6brPages = true ∧
    (flattenPages c6brPages).length = 2 ∧
    fetchEntityBusinessRules c6brPages = [mkBusinessRule (wfNamed "rule1")] ∧
    (fetchEntityBusinessRules c6brPages).length = 1 :=
  ⟨by decide, by decide, by decide, by decide⟩

/-- C6 amended: the Attributes, Relationships, Forms and Views fetchers
compose the paginated fetcher and follow the continuation link until absent,
returning all pages' records; the Business Rules fetcher issues a single
request and returns only the first response's records (mapped per record),
ignoring any continuation link. -/
theorem categoryFetchers_paging {α : Type}
    (pagesA pagesV pagesF rels1 rels2 rels3 : List (Page α))
    (hA : chainedExceptLast pagesA = true)
    (hV : chainedExceptLast pagesV = true)
    (hF : chainedExceptLast pagesF = true)
    (h1 : chainedExceptLast rels1 = true)
    (h2 : chainedExceptLast rels2 = true)
    (h3 : chainedExceptLast rels3 = true) :
    fetchEntityAttributes pagesA = flattenPages pagesA ∧
    fetchEntityViews pagesV = flattenPages pagesV ∧
    fetchEntityForms pagesF = flattenPages pagesF ∧
    fetchEntityRelationships rels1 rels2 rels3
      = flattenPages rels1 ++ flattenPages rels2 ++ flattenPages rels3 ∧
    (∀ (p : Page RawWorkflow) (rest : List (Page RawWorkflow)),
      fetchEntityBusinessRules (p :: rest)
        = (pageRecords p).map mkBusinessRule) := by
  refine ⟨fetchAllPages_eq_flattenPages pagesA hA,
    fetchAllPages_eq_flattenPages pagesV hV,
    fetchAllPages_eq_flattenPages pagesF hF, ?_, fun _ _ => rfl⟩
  unfold fetchEntityRelationships
  rw [fetchAllPages_eq_flattenPages rels1 h1,
    fetchAllPages_eq_flattenPages rels2 h2,
    fetchAllPages_eq_flattenPages rels3 h3]

def c6chain : List (Page Nat) := [⟨some [1], some "next"⟩, ⟨some [2], none⟩]

theorem categoryFetchers_paging_witness :
    chainedExceptLast c6chain = true ∧
    fetchEntityAttributes c6chain = flattenPages c6chain ∧
    fetchEntityBusinessRules c6brPages
      = (pageRecords c6brPage1).map mkBusinessRule :=
  ⟨by decide,
   (categoryFetchers_paging c6chain c6chain c6chain c6chain c6chain c6chain
     (by decide) (by decide) (by decide) (by decide) (by decide)
     (by decide)).1,
   (categoryFetchers_paging c6chain c6chain c6chain c6chain c6chain c6chain
     (by decide) (by decide) (by decide) (by decide) (by decide)
     (by decide)).2.2.2.2 c6brPage1 [c6brPage2]⟩

/-! DOT generation (generateRelationshipDiagram.ts generateDot): one node
pair and one labelled directed edge per relationship in the list. -/

/-- One directed edge of the generated graph description. -/
structure DotEdge where
  source : String
  target : String
  labelParts : List String
deriving DecidableEq, Repr

/-- Interpolation of a JavaScript value into a template literal. -/
def jsInterp : JSValue → String
  | .undefined => "undefined"
  | .null => "null"
  | .bool b => if b then "true" else "false"
  | .num n => toString n
  | .str s => s

/-- Model of field or-else Unknown interpolated as a node name. -/
def nodeName (v : JSValue) : String :=
  if truthy v then jsInterp v else "Unknown"

/-- Label parts of one edge, as generateDot builds them: the schema name, the
parenthesised relationship type, then the marker [Custom] pushed when
IsCustomRelationship is strictly true and the marker [Changed] pushed when
HasChanged is not null; the source joins them with single spaces. -/
def dotLabelParts (rel : Row) : List String :=
  [jsInterp (getField rel "Schema Name"),
   "(" ++ jsInterp (getField rel "Type") ++ ")"]
    ++ (if getField rel "IsCustomRelationship" == JSValue.bool true then
          ["[Custom]"] else [])
    ++ (if !(getField rel "HasChanged" == JSValue.null) then
          ["[Changed]"] else [])

/-- The directed edge generateDot emits for one relationship: from the
Referencing Entity node to the Entity Ref. node. -/
def dotEdgeOf (rel : Row) : DotEdge :=
  { source := nodeName (getField rel "Referencing Entity"),
    target := nodeName (getField rel "Entity Ref."),
    labelParts := dotLabelParts rel }

/-- The edge list of the generated graph description: the forEach over the
surviving relationships emits exactly one edge line per element. -/
def generateDotEdges (rels : List Row) : List DotEdge :=
  rels.map dotEdgeOf

theorem dotLabelParts_mkEdge (hc ic : JSValue) (sn t er re : String) :
    dotLabelParts (mkEdge hc ic sn t er re)
      = [sn, "(" ++ t ++ ")"]
          ++ (if ic == JSValue.bool true then ["[Custom]"] else [])
          ++ (if !(hc == JSValue.null) then ["[Changed]"] else []) := rfl

/-- C7: the generated graph description contains exactly one directed edge
per surviving relationship edge, and its label carries the edge's schema name
and parenthesised relationship type, the marker [Custom] exactly when the
edge is flagged custom, and the marker [Changed] exactly when HasChanged is
not null (the name fields are assumed not to spell a literal marker). -/
theorem generateDot_edge_labels :
    (∀ rels : List Row,
      (generateDotEdges rels).length = rels.length ∧
      ∀ rel ∈ rels, dotEdgeOf rel ∈ generateDotEdges rels) ∧
    (∀ (hc ic : JSValue) (sn t er re : String),
      sn ≠ "[Custom]" → sn ≠ "[Changed]" →
      "(" ++ t ++ ")" ≠ "[Custom]" → "(" ++ t ++ ")" ≠ "[Changed]" →
      (sn ∈ dotLabelParts (mkEdge hc ic sn t er re) ∧
       ("(" ++ t ++ ")") ∈ dotLabelParts (mkEdge hc ic sn t er re) ∧
       ("[Custom]" ∈ dotLabelParts (mkEdge hc ic sn t er re)
          ↔ ic = JSValue.bool true) ∧
       ("[Changed]" ∈ dotLabelParts (mkEdge hc ic sn t er re)
          ↔ hc ≠ JSValue.null))) := by
  constructor
  · intro rels
    exact ⟨by simp [generateDotEdges],
      fun rel h => List.mem_map_of_mem dotEdgeOf h⟩
  · intro hc ic sn t er re h1 h2 h3 h4
    have hcc : ("[Custom]" : String) ≠ "[Changed]" := by decide
    have hch : ("[Changed]" : String) ≠ "[Custom]" := by decide
    rw [dotLabelParts_mkEdge]
    refine ⟨by simp, by simp, ?_, ?_⟩
    · by_cases hic : ic = JSValue.bool true <;>
        by_cases hhc : hc = JSValue.null <;>
        simp [hic, hhc, Ne.symm h1, Ne.symm h3, hch]
    · by_cases hic : ic = JSValue.bool true <;>
        by_cases hhc : hc = JSValue.null <;>
        simp [hic, hhc, Ne.symm h2, Ne.symm h4, hcc]

theorem generateDot_edge_labels_witness :
    (generateDotEdges [mkEdge JSValue.null (JSValue.bool true)
        "new_account_contact" "OneToManyRelationship" "account" "contact"]).length
      = [mkEdge JSValue.null (JSValue.bool true)
          "new_account_contact" "OneToManyRelationship" "account" "contact"].length ∧
    ("new_account_contact" ∈ dotLabelParts (mkEdge JSValue.null
        (JSValue.bool true) "new_account_contact" "OneToManyRelationship"
        "account" "contact") ∧
     ("(" ++ "OneToManyRelationship" ++ ")") ∈ dotLabelParts (mkEdge
        JSValue.null (JSValue.bool true) "new_account_contact"
        "OneToManyRelationship" "account" "contact") ∧
     ("[Custom]" ∈ dotLabelParts (mkEdge JSValue.null (JSValue.bool true)
        "new_account_contact" "OneToManyRelationship" "account" "contact")
        ↔ JSValue.bool true = JSValue.bool true) ∧
     ("[Changed]" ∈ dotLabelParts (mkEdge JSValue.null (JSValue.bool true)
        "new_account_contact" "OneToManyRelationship" "account" "contact")
        ↔ JSValue.null ≠ JSValue.null)) :=
  ⟨(generateDot_edge_labels.1 [mkEdge JSValue.null (JSValue.bool true)
      "new_account_contact" "OneToManyRelationship" "account" "contact"]).1,
   generateDot_edge_labels.2 JSValue.null (JSValue.bool true)
     "new_account_contact" "OneToManyRelationship" "account" "contact"
     (by decide) (by decide) (by decide) (by decide)⟩

/-! Per-type diagram loop of processEntityAll (processEntity.ts): for each of
the three relationship-type variants, the transformed relationships are
filtered to the type, then through shouldIncludeRelationship; a diagram is
rendered only when some edge survives, otherwise a zero-count notice is
logged. -/

/-- The observable outcome of one iteration of the loop. -/
inductive DiagramEvent where
  | rendered (fileName : String)
  | zeroNotice (rtype : String)
deriving DecidableEq, Repr

/-- The three relationship-type variants the loop iterates over. -/
def relationshipTypes : List String :=
  ["OneToManyRelationship", "ManyToOneRelationship", "ManyToManyRelationship"]

/-- Type filter then custom/changed and exclusion filter, as the loop body
applies them to the transformed relationship rows. -/
def filteredOfType (rels : List Row) (rtype : String) : List Row :=
  (rels.filter (fun rel => getField rel "Type" == JSValue.str rtype)).filter
    shouldIncludeRelationship

/-- Shallow embedding of the per-type loop: one event per relationship type,
a render of entityName-type.png when the filtered set is non-empty, a
zero-count notice otherwise. -/
def processEntityDiagramLoop (entityName : String) (rels : List Row) :
    List DiagramEvent :=
  relationshipTypes.map (fun rtype =>
    if (filteredOfType rels rtype).length > 0 then
      .rendered (entityName ++ "-" ++ rtype ++ ".png")
    else
      .zeroNotice rtype)

theorem diagramName_inj (en t1 t2 : String)
    (h : en ++ "-" ++ t1 ++ ".png" = en ++ "-" ++ t2 ++ ".png") : t1 = t2 := by
  have hd := congrArg String.data h
  simp only [String.data_append] at hd
  exact String.ext (List.append_cancel_left (List.append_cancel_right hd))

theorem length_pos_iff_ne {α : Type} (L : List α) :
    (L.length > 0) ↔ L ≠ [] := List.length_pos

/-- C5: for every fetched relationship set, the per-type loop renders a
diagram named entityName-type.png exactly for the types whose type-filtered
then custom/changed+exclusion-filtered edge set is non-empty, and for a type
whose filtered set is empty it renders nothing and emits a zero-count notice
instead. -/
theorem processEntityDiagramLoop_spec (en : String) (rels : List Row)
    (rtype : String) (ht : rtype ∈ relationshipTypes) :
    (DiagramEvent.rendered (en ++ "-" ++ rtype ++ ".png")
        ∈ processEntityDiagramLoop en rels
      ↔ filteredOfType rels rtype ≠ []) ∧
    (DiagramEvent.zeroNotice rtype ∈ processEntityDiagramLoop en rels
      ↔ filteredOfType rels rtype = []) := by
  have hne12 : en ++ "-" ++ "OneToManyRelationship" ++ ".png"
      ≠ en ++ "-" ++ "ManyToOneRelationship" ++ ".png" :=
    fun hq => absurd (diagramName_inj en _ _ hq) (by decide)
  have hne13 : en ++ "-" ++ "OneToManyRelationship" ++ ".png"
      ≠ en ++ "-" ++ "ManyToManyRelationship" ++ ".png" :=
    fun hq => absurd (diagramName_inj en _ _ hq) (by decide)
  have hne21 : en ++ "-" ++ "ManyToOneRelationship" ++ ".png"
      ≠ en ++ "-" ++ "OneToManyRelationship" ++ ".png" :=
    fun hq => absurd (diagramName_inj en _ _ hq) (by decide)
  have hne23 : en ++ "-" ++ "ManyToOneRelationship" ++ ".png"
      ≠ en ++ "-" ++ "ManyToManyRelationship" ++ ".png" :=
    fun hq => absurd (diagramName_inj en _ _ hq) (by decide)
  have hne31 : en ++ "-" ++ "ManyToManyRelationship" ++ ".png"
      ≠ en ++ "-" ++ "OneToManyRelationship" ++ ".png" :=
    fun hq => absurd (diagramName_inj en _ _ hq) (by decide)
  have hne32 : en ++ "-" ++ "ManyToManyRelationship" ++ ".png"
      ≠ en ++ "-" ++ "ManyToOneRelationship" ++ ".png" :=
    fun hq => absurd (diagramName_inj en _ _ hq) (by decide)
  rw [← length_pos_iff_ne]
  simp only [relationshipTypes, List.mem_cons, List.not_mem_nil,
    or_false] at ht
  rcases ht with h|h|h <;> subst h <;>
    by_cases c1 : (filteredOfType rels "OneToManyRelationship").length > 0 <;>
    by_cases c2 : (filteredOfType rels "ManyToOneRelationship").length > 0 <;>
    by_cases c3 : (filteredOfType rels "ManyToManyRelationship").length > 0 <;>
    simp_all [processEntityDiagramLoop, relationshipTypes,
      List.length_eq_zero, hne12, hne13, hne21, hne23, hne31, hne32,
      Nat.pos_iff_ne_zero]

theorem processEntityDiagramLoop_spec_witness :
    ("OneToManyRelationship" : String) ∈ relationshipTypes ∧
    ((DiagramEvent.rendered
        ("account" ++ "-" ++ "OneToManyRelationship" ++ ".png")
        ∈ processEntityDiagramLoop "account" []
      ↔ filteredOfType [] "OneToManyRelationship" ≠ []) ∧
     (DiagramEvent.zeroNotice "OneToManyRelationship"
        ∈ processEntityDiagramLoop "account" []
      ↔ filteredOfType [] "OneToManyRelationship" = [])) :=
  ⟨by decide,
   processEntityDiagramLoop_spec "account" [] "OneToManyRelationship"
     (by decide)⟩

/-! Rendering flow of generateRelationshipDiagram
(generateRelationshipDiagram.ts), modelled as the sequence of observable
steps once the external rendering step is reached: the exec callback first
unlinks the temporary DOT file, then rejects the promise with the renderer's
error or resolves it. -/

/-- Observable steps of one invocation of the renderer. -/
inductive RenderStep where
  | mkdirDiagrams
  | writeTempDot
  | invokeDot
  | removeTempDot
  | resolveP
  | rejectP (e : String)
deriving DecidableEq, Repr

/-- The settled state of the returned promise. -/
inductive PromiseOutcome where
  | resolved
  | rejected (e : String)
deriving DecidableEq, Repr

/-- The exec callback: unlink the temporary file first, then settle the
promise according to the renderer's outcome (some error, or success). -/
def execCallback (result : Option String) : List RenderStep :=
  RenderStep.removeTempDot ::
    (match result with
     | some e => [RenderStep.rejectP e]
     | none => [RenderStep.resolveP])

/-- The steps generateRelationshipDiagram performs when it reaches the
external rendering step: ensure the diagrams directory, write the temporary
DOT file, invoke the external renderer, then run its callback. -/
def generateRelationshipDiagramRun (result : Option String) :
    List RenderStep :=
  [RenderStep.mkdirDiagrams, RenderStep.writeTempDot, RenderStep.invokeDot]
    ++ execCallback result

/-- How the returned promise settles for a given renderer outcome. -/
def runOutcome (result : Option String) : PromiseOutcome :=
  match result with
  | some e => .rejected e
  | none => .resolved

/-- C8: whenever the external rendering step is reached the temporary DOT
file is removed, whether the renderer succeeds or fails; the promise rejects
with the renderer's failure exactly when the renderer fails, and the first
four steps — ending with the removal — contain no rejection, so the failure
propagates only after the temporary file has been removed. -/
theorem generateRelationshipDiagram_cleanup (result : Option String) :
    RenderStep.removeTempDot ∈ generateRelationshipDiagramRun result ∧
    (∀ e, runOutcome result = PromiseOutcome.rejected e ↔ result = some e) ∧
    (generateRelationshipDiagramRun result).take 4
      = [RenderStep.mkdirDiagrams, RenderStep.writeTempDot,
         RenderStep.invokeDot, RenderStep.removeTempDot] := by
  cases result <;>
    simp [generateRelationshipDiagramRun, execCallback, runOutcome,
      PromiseOutcome.rejected.injEq, eq_comm]

end DynWebApi
